import Mathlib

/-!
# Verification of `serial_bridge.py` (Weather-API-website)

Shallow embedding of the HTTP-to-serial relay in `src/serial_bridge.py`:
a `ThreadingHTTPServer` whose `WindSpeedHandler` accepts
`POST /wind-speed` with a JSON body `\x7b"windSpeedKmh": v\x7d`, coerces the
value with Python's `float()`, formats it as `f"\x7bv:.1f\x7d\n"` and writes it
to a shared pyserial connection, mapping outcomes to HTTP responses.

Modelling conventions:
* Python floats are modelled by `PyFloat`: an exact rational for the finite
  case plus `nan` / `inf` / `-inf`.  Rounding in `f"\x7bv:.1f\x7d"` is modelled
  as round-half-to-even on the exact rational (CPython rounds the underlying
  binary double; the difference is invisible at the inputs used here, and the
  sign of IEEE negative zero is not tracked).
* `json.loads` is external library code; a request therefore carries the
  *outcome* of parsing its body bytes (`Except Unit JsonVal`), and the
  handler is a pure function of that outcome, exactly mirroring how
  `do_POST` only ever inspects the parse result or catches
  `json.JSONDecodeError`.
* `float(str)` and `int(str)` are modelled on `String` following CPython
  semantics for signs, whitespace, decimal/exponent notation and the
  `inf`/`infinity`/`nan` spellings (digit-group underscores are not
  modelled; no claim depends on them).
* The serial connection is `SerialConn`: `uninit` models
  `WindSpeedHandler.serial_conn is None` (the `assert` raises a bare
  `AssertionError`, whose `str()` is the empty string), `failing msg`
  models a `serial.SerialException` with message `msg` raised by `write`,
  and `working` models a successful write.  `Outcome` records the response
  together with the list of successful serial writes; `exn` records an
  exception escaping `do_POST` (the `http.server` machinery then closes
  the connection without sending any response body).
-/

set_option autoImplicit false

namespace SerialBridge

/-- A CPython `float` value: finite (exact rational stand-in) or non-finite. -/
inductive PyFloat where
  | finite (q : ℚ)
  | nan
  | inf
  | ninf
  deriving DecidableEq, Repr

/-- Round the fraction `a / b` (with `b > 0`) to the nearest integer, ties
to even, as CPython string formatting rounds scaled values. -/
def rndHalfEven (a b : ℤ) : ℤ :=
  let n := Int.ediv a b
  let r := Int.emod a b
  if 2 * r < b then n
  else if b < 2 * r then n + 1
  else if Int.emod n 2 = 0 then n else n + 1

/-- `f"\x7bq:.1f\x7d"` for a finite value: fixed point, exactly one digit after
the decimal point.  The scaled value `q * 10` is the exact fraction
`10 * q.num / q.den`. -/
def pyFormatFixed1 (q : ℚ) : String :=
  let t := rndHalfEven (10 * q.num) (q.den : ℤ)
  let a := t.natAbs
  (if t < 0 then "-" else "") ++ Nat.repr (a / 10) ++ "." ++ Nat.repr (a % 10)

/-- `f"\x7bv:.1f\x7d"` on any `PyFloat` (CPython renders non-finite values as
`nan`, `inf`, `-inf` regardless of the format precision). -/
def renderFloat : PyFloat → String
  | .finite q => pyFormatFixed1 q
  | .nan => "nan"
  | .inf => "inf"
  | .ninf => "-inf"

/-- Numeric value of a list of decimal digit characters. -/
def natOfDigits (ds : List Char) : ℕ :=
  ds.foldl (fun a c => 10 * a + (c.toNat - 48)) 0

/-- Strip leading and trailing whitespace, as CPython `float(str)` and
`int(str)` do before parsing. -/
def trimChars (cs : List Char) : List Char :=
  ((cs.dropWhile Char.isWhitespace).reverse.dropWhile Char.isWhitespace).reverse

/-- Parse an unsigned decimal mantissa: `digits`, `digits.digits`,
`digits.` or `.digits` (at least one digit overall). -/
def parseMantissa (cs : List Char) : Option ℚ :=
  let ip := cs.takeWhile Char.isDigit
  match cs.dropWhile Char.isDigit with
  | [] => if ip.isEmpty then none else some ((natOfDigits ip : ℤ) : ℚ)
  | '.' :: rest =>
    let fp := rest.takeWhile Char.isDigit
    if (rest.dropWhile Char.isDigit).isEmpty then
      if ip.isEmpty && fp.isEmpty then none
      else some (((natOfDigits ip : ℤ) : ℚ) + ((natOfDigits fp : ℤ) : ℚ) / 10 ^ fp.length)
    else none
  | _ => none

/-- Parse an optionally signed run of decimal digits (used for exponents and
for CPython `int(str)` after trimming). -/
def parseSignedInt (cs : List Char) : Option ℤ :=
  match cs with
  | '+' :: ds => if ds.isEmpty || !ds.all Char.isDigit then none else some (natOfDigits ds)
  | '-' :: ds => if ds.isEmpty || !ds.all Char.isDigit then none else some (-(natOfDigits ds : ℤ))
  | ds => if ds.isEmpty || !ds.all Char.isDigit then none else some (natOfDigits ds)

/-- Parse an unsigned decimal literal with optional `e`-exponent (input
already lowercased). -/
def parseDecimal (cs : List Char) : Option ℚ :=
  let m := cs.takeWhile (· ≠ 'e')
  match cs.dropWhile (· ≠ 'e') with
  | [] => parseMantissa m
  | _ :: ecs => do
    let q ← parseMantissa m
    let e ← parseSignedInt ecs
    some (q * (10 : ℚ) ^ e)

/-- CPython `float(s)` on a string: strip whitespace, optional sign, then a
decimal literal or one of `inf` / `infinity` / `nan` (case-insensitive).
Returns `none` when CPython would raise `ValueError`. -/
def pyFloatOfString (s : String) : Option PyFloat :=
  let cs := trimChars s.data
  let signed : Bool × List Char :=
    match cs with
    | '+' :: r => (false, r)
    | '-' :: r => (true, r)
    | r => (false, r)
  let neg := signed.1
  let low := signed.2.map Char.toLower
  if low = "inf".data || low = "infinity".data then
    some (if neg then PyFloat.ninf else PyFloat.inf)
  else if low = "nan".data then
    some PyFloat.nan
  else
    (parseDecimal low).map (fun q => PyFloat.finite (if neg then -q else q))

/-- CPython `int(s)` on a string: strip whitespace, optional sign, digits.
Returns `none` when CPython would raise `ValueError`. -/
def pyIntOfString (s : String) : Option ℤ :=
  parseSignedInt (trimChars s.data)

/-- A JSON value as produced by `json.loads` (Python's parser also accepts
the non-standard `NaN` / `Infinity` / `-Infinity` literals, hence `num`
carries a full `PyFloat`; JSON integers and floats both coerce through
`float()` identically for our purposes). -/
inductive JsonVal where
  | null
  | bool (b : Bool)
  | num (x : PyFloat)
  | str (s : String)
  | arr (elems : List JsonVal)
  | obj (fields : List (String × JsonVal))

/-- `data["windSpeedKmh"]`-style subscription: succeeds only on an object
containing the key. On every other shape CPython raises `KeyError` or
`TypeError`, both caught by the handler. -/
def getField : JsonVal → String → Option JsonVal
  | .obj fs, k => fs.lookup k
  | _, _ => none

/-- CPython `float(x)` on a decoded JSON value: numbers pass through, `bool`
is an `int` subclass (`True` → 1.0, `False` → 0.0), strings are parsed, and
`None` / lists / dicts raise `TypeError` (modelled as `none`). -/
def pyFloatOfJson : JsonVal → Option PyFloat
  | .num x => some x
  | .bool b => some (.finite (if b then 1 else 0))
  | .str s => pyFloatOfString s
  | _ => none

/-- An inbound POST request as `do_POST` observes it: the URL path, the raw
`Content-Length` header if present, and the outcome of `json.loads` on the
body bytes that would be read. -/
structure Request where
  path : String
  contentLength : Option String
  body : Except Unit JsonVal

/-- The response bodies the program can emit, kept structured; `render`
below gives the exact bytes. -/
inductive RespBody where
  | ok
  | notFound
  | invalidPayload
  | serialError (details : String)
  | libError (code : ℕ) (message : String)
  deriving DecidableEq, Repr

/-- Minimal JSON string escaping as performed by `json.dumps` on the
`details` value (backslash and quote; control characters do not occur in
the messages modelled here). -/
def jsonEscape (s : String) : String :=
  String.mk (s.data.foldr
    (fun c acc =>
      match c with
      | '\\' => '\\' :: '\\' :: acc
      | '\"' => '\\' :: '\"' :: acc
      | c => c :: acc) [])

/-- Exact body bytes. The first three are string literals in `do_POST`; the
serial-error body is `json.dumps(\x7b"error": "serial_error", "details":
str(error)\x7d)` with its default `", "` / `": "` separators; `libError` stands
for the `http.server` default HTML error page, whose exact markup no claim
depends on. -/
def RespBody.render : RespBody → String
  | .ok => "\x7b\"status\":\"ok\"\x7d"
  | .notFound => "\x7b\"error\":\"not_found\"\x7d"
  | .invalidPayload => "\x7b\"error\":\"invalid_payload\"\x7d"
  | .serialError d =>
    "\x7b\"error\": \"serial_error\", \"details\": \"" ++ jsonEscape d ++ "\"\x7d"
  | .libError c m => "<html>" ++ Nat.repr c ++ " " ++ m ++ "</html>"

/-- An HTTP response: status code, the headers the handler explicitly sends
via `send_header` (in order), and the body written to `wfile`, if any. -/
structure Response where
  status : ℕ
  headers : List (String × String)
  body : Option RespBody
  deriving DecidableEq, Repr

/-- Result of running a handler method on one request: either a response
together with the list of lines successfully written to the serial device,
or an exception escaping the method (the server thread then drops the
connection without a response; the server itself keeps running). -/
inductive Outcome where
  | resp (r : Response) (writes : List String)
  | exn (name : String)
  deriving DecidableEq, Repr

/-- `_set_cors_headers`: the three headers sent on every code path. -/
def corsHeaders : List (String × String) :=
  [("Access-Control-Allow-Origin", "*"),
   ("Access-Control-Allow-Methods", "POST, OPTIONS"),
   ("Access-Control-Allow-Headers", "Content-Type")]

/-- CORS headers followed by `Content-Type: application/json`, the header
sequence of every `do_POST` response. -/
def jsonHeaders : List (String × String) :=
  corsHeaders ++ [("Content-Type", "application/json")]

/-- State of the class attribute `WindSpeedHandler.serial_conn` and of the
device behind it, as one request observes it. -/
inductive SerialConn where
  | uninit
  | failing (msg : String)
  | working
  deriving DecidableEq, Repr

/-- `float(data["windSpeedKmh"])` applied to a body-parse outcome: `none`
exactly when one of `json.JSONDecodeError`, `KeyError`, `TypeError`,
`ValueError` is raised (all caught by the same `except` clause). -/
def extractWindSpeed (parsed : Except Unit JsonVal) : Option PyFloat :=
  match parsed with
  | .error _ => none
  | .ok j => (getField j "windSpeedKmh").bind pyFloatOfJson

/-- `WindSpeedHandler.do_POST`, lines 41-82 of `serial_bridge.py`:
path check, `int(Content-Length)` (outside the `try`, so a non-numeric
header raises an uncaught `ValueError`), body read (`b"\x7b\x7d"` when the length
is zero or the header absent), JSON decode + `float` coercion, then the
guarded serial write and the response. -/
def do_POST (conn : SerialConn) (req : Request) : Outcome :=
  if req.path ≠ "/wind-speed" then
    .resp ⟨404, jsonHeaders, some .notFound⟩ []
  else
    match pyIntOfString (req.contentLength.getD "0") with
    | none => .exn "ValueError"
    | some length =>
      match extractWindSpeed (if length ≠ 0 then req.body else Except.ok (JsonVal.obj [])) with
      | none => .resp ⟨400, jsonHeaders, some .invalidPayload⟩ []
      | some f =>
        match conn with
        | .uninit => .resp ⟨500, jsonHeaders, some (.serialError "")⟩ []
        | .failing msg => .resp ⟨500, jsonHeaders, some (.serialError msg)⟩ []
        | .working => .resp ⟨200, jsonHeaders, some .ok⟩ [renderFloat f ++ "\n"]

/-- `WindSpeedHandler.do_OPTIONS`: 204, CORS headers only, no body, on any
path. -/
def do_OPTIONS : Outcome :=
  .resp ⟨204, corsHeaders, none⟩ []

/-- Method dispatch performed by `BaseHTTPRequestHandler.handle_one_request`:
`do_<METHOD>` is looked up on the handler class, which defines only
`do_POST` and `do_OPTIONS`; any other method is answered by the library
with `501 Unsupported method` (an HTML error page, no CORS headers). -/
def handleRequest (conn : SerialConn) (method : String) (req : Request) : Outcome :=
  if method = "POST" then do_POST conn req
  else if method = "OPTIONS" then do_OPTIONS
  else
    .resp ⟨501,
      [("Content-Type", "text/html;charset=utf-8"), ("Connection", "close")],
      some (.libError 501 ("Unsupported method " ++ method))⟩ []

/-- How the running server was asked to stop: a `SIGINT`/`SIGTERM` handled
by `shutdown_handler` (which calls `server.shutdown()`), or a
`KeyboardInterrupt` escaping `main` and caught by the `__main__` block. -/
inductive StopMode where
  | signalStop
  | keyboardInterrupt
  deriving DecidableEq, Repr

/-- Observable outcome of one run of the process. -/
structure ProcOutcome where
  exitCode : ℕ
  listenerStarted : Bool
  serialClosed : Bool
  deriving DecidableEq, Repr

/-- `main()` plus the `__main__` guard, lines 96-125: if `serial.Serial`
raises, `SystemExit(1)` propagates (only `KeyboardInterrupt` is caught in
`__main__`), so the process exits 1 and `create_server` is never reached;
otherwise the listener runs until a stop, the `finally` block closes the
port, and the process exits 0 (a `KeyboardInterrupt` is caught and turned
into `sys.exit(0)`). -/
def processMain (openResult : Except String Unit) (mode : StopMode) : ProcOutcome :=
  match openResult with
  | .error _ => ⟨1, false, false⟩
  | .ok _ =>
    match mode with
    | .signalStop => ⟨0, true, true⟩
    | .keyboardInterrupt => ⟨0, true, true⟩

/-- The invalid-payload shapes enumerated by the specification: a body that
is not valid JSON, a decoded body without a usable `windSpeedKmh` entry
(missing key, or not an object at all), or a `windSpeedKmh` that is a
non-parsing string, an object, `null`, or an array. -/
def badPayloadB : Except Unit JsonVal → Bool
  | .error _ => true
  | .ok j =>
    match getField j "windSpeedKmh" with
    | none => true
    | some (.str s) => (pyFloatOfString s).isNone
    | some (.obj _) => true
    | some (.arr _) => true
    | some .null => true
    | some _ => false

/-! ## Helper lemmas -/

theorem repr_length_one (d : ℕ) (h : d < 10) : (Nat.repr d).length = 1 := by
  interval_cases d <;> rfl

theorem pyFormatFixed1_decomp (q : ℚ) :
    ∃ (pre : String) (d : ℕ), d < 10 ∧ (Nat.repr d).length = 1 ∧
      pyFormatFixed1 q = pre ++ "." ++ Nat.repr d := by
  refine ⟨(if rndHalfEven (10 * q.num) (q.den : ℤ) < 0 then "-" else "") ++
      Nat.repr ((rndHalfEven (10 * q.num) (q.den : ℤ)).natAbs / 10),
    (rndHalfEven (10 * q.num) (q.den : ℤ)).natAbs % 10,
    Nat.mod_lt _ (by norm_num), repr_length_one _ (Nat.mod_lt _ (by norm_num)), rfl⟩

theorem extract_none_of_bad (b : Except Unit JsonVal) (hb : badPayloadB b = true) :
    extractWindSpeed b = none := by
  cases b with
  | error e => rfl
  | ok j =>
    cases hg : getField j "windSpeedKmh" with
    | none => simp [extractWindSpeed, hg]
    | some v => cases v <;> simp_all [extractWindSpeed, badPayloadB, pyFloatOfJson]

theorem extract_empty_obj : extractWindSpeed (Except.ok (JsonVal.obj [])) = none := rfl

/-! ## Claims -/

/-- C1: a POST to `/wind-speed` whose JSON body carries any finite numeric
`windSpeedKmh` value (no range validation: negative and extreme values
included) yields HTTP 200 with body `\x7b"status":"ok"\x7d` and exactly one
serial write of the value formatted as fixed point with exactly one digit
after the decimal point, followed by a single newline. -/
theorem post_valid_numeric_ok (q : ℚ) (s : String) (n : ℤ)
    (hs : pyIntOfString s = some n) (hn : n ≠ 0) :
    do_POST SerialConn.working
        ⟨"/wind-speed", some s,
          Except.ok (JsonVal.obj [("windSpeedKmh", JsonVal.num (PyFloat.finite q))])⟩ =
      Outcome.resp ⟨200, jsonHeaders, some RespBody.ok⟩ [pyFormatFixed1 q ++ "\n"] ∧
    RespBody.ok.render = "\x7b\"status\":\"ok\"\x7d" ∧
    ∃ (pre : String) (d : ℕ), d < 10 ∧ (Nat.repr d).length = 1 ∧
      pyFormatFixed1 q ++ "\n" = pre ++ "." ++ Nat.repr d ++ "\n" := by
  refine ⟨?_, rfl, ?_⟩
  · unfold do_POST
    simp [hs, hn, extractWindSpeed, getField, pyFloatOfJson, renderFloat]
  · obtain ⟨pre, d, hd, hlen, hq⟩ := pyFormatFixed1_decomp q
    exact ⟨pre, d, hd, hlen, by rw [hq]⟩

theorem post_valid_numeric_ok_witness :
    pyIntOfString "17" = some 17 ∧ (17 : ℤ) ≠ 0 ∧
    (do_POST SerialConn.working
        ⟨"/wind-speed", some "17",
          Except.ok (JsonVal.obj [("windSpeedKmh", JsonVal.num (PyFloat.finite 7))])⟩ =
      Outcome.resp ⟨200, jsonHeaders, some RespBody.ok⟩ [pyFormatFixed1 7 ++ "\n"]) ∧
    pyFormatFixed1 7 ++ "\n" = "7.0\n" :=
  ⟨by decide, by decide, (post_valid_numeric_ok 7 "17" 17 (by decide) (by decide)).1, by decide⟩

/-- C2: a POST to `/wind-speed` whose body is malformed JSON, or lacks
`windSpeedKmh`, or carries a non-numeric value (non-parsing string, object,
null, array) is answered 400 `\x7b"error":"invalid_payload"\x7d` with no serial
write; likewise when `Content-Length` is absent (the handler then parses
`b"\x7b\x7d"`, and the key is missing). -/
theorem post_invalid_payload_400 (conn : SerialConn) (s : String) (n : ℤ)
    (b : Except Unit JsonVal) (hs : pyIntOfString s = some n) (hb : badPayloadB b = true) :
    do_POST conn ⟨"/wind-speed", some s, b⟩ =
      Outcome.resp ⟨400, jsonHeaders, some RespBody.invalidPayload⟩ [] ∧
    do_POST conn ⟨"/wind-speed", none, b⟩ =
      Outcome.resp ⟨400, jsonHeaders, some RespBody.invalidPayload⟩ [] ∧
    RespBody.invalidPayload.render = "\x7b\"error\":\"invalid_payload\"\x7d" := by
  have hext := extract_none_of_bad b hb
  refine ⟨?_, ?_, rfl⟩
  · unfold do_POST
    by_cases h0 : n = 0
    · subst h0
      simp [hs, extract_empty_obj]
    · simp [hs, h0, hext]
  · have h0 : pyIntOfString "0" = some 0 := by decide
    unfold do_POST
    simp [h0, extract_empty_obj]

theorem post_invalid_payload_400_witness :
    pyIntOfString "9" = some 9 ∧
    badPayloadB (Except.ok (JsonVal.obj [("windSpeedKmh", JsonVal.str "fast")])) = true ∧
    do_POST SerialConn.working
        ⟨"/wind-speed", some "9",
          Except.ok (JsonVal.obj [("windSpeedKmh", JsonVal.str "fast")])⟩ =
      Outcome.resp ⟨400, jsonHeaders, some RespBody.invalidPayload⟩ [] :=
  ⟨by decide, by decide,
    (post_invalid_payload_400 SerialConn.working "9" 9
      (Except.ok (JsonVal.obj [("windSpeedKmh", JsonVal.str "fast")]))
      (by decide) (by decide)).1⟩

/-- C4 (counterexample): with the connection uninitialized (the claim's own
"has not been initialized" case) and a valid numeric payload, the bare
`AssertionError` stringifies to `""`, so the 500 response's `details` is the
empty string — there is no non-empty `details` for this input. -/
theorem serial_error_empty_details_counterexample :
    do_POST SerialConn.uninit
        ⟨"/wind-speed", some "22",
          Except.ok (JsonVal.obj [("windSpeedKmh", JsonVal.num (PyFloat.finite 7))])⟩ =
      Outcome.resp ⟨500, jsonHeaders, some (RespBody.serialError "")⟩ [] ∧
    ¬ ∃ d : String, d ≠ "" ∧
      do_POST SerialConn.uninit
          ⟨"/wind-speed", some "22",
            Except.ok (JsonVal.obj [("windSpeedKmh", JsonVal.num (PyFloat.finite 7))])⟩ =
        Outcome.resp ⟨500, jsonHeaders, some (RespBody.serialError d)⟩ [] := by
  have h0 : do_POST SerialConn.uninit
      ⟨"/wind-speed", some "22",
        Except.ok (JsonVal.obj [("windSpeedKmh", JsonVal.num (PyFloat.finite 7))])⟩ =
      Outcome.resp ⟨500, jsonHeaders, some (RespBody.serialError "")⟩ [] := by decide
  refine ⟨h0, ?_⟩
  rintro ⟨d, hd, h⟩
  rw [h0] at h
  simp only [Outcome.resp.injEq, Response.mk.injEq, Option.some.injEq,
    RespBody.serialError.injEq] at h
  exact hd h.1.2.2.symm

/-- C4 (amended): on a valid numeric payload, an uninitialized connection or
a failing write yields HTTP 500 with `error: "serial_error"` and `details`
equal to `str()` of the raised exception — the exception's message for a
failing write, but the empty string for the uninitialized case — and no
serial write occurs. -/
theorem serial_error_500 (s : String) (n : ℤ) (q : ℚ) (msg : String)
    (hs : pyIntOfString s = some n) (hn : n ≠ 0) :
    do_POST (SerialConn.failing msg)
        ⟨"/wind-speed", some s,
          Except.ok (JsonVal.obj [("windSpeedKmh", JsonVal.num (PyFloat.finite q))])⟩ =
      Outcome.resp ⟨500, jsonHeaders, some (RespBody.serialError msg)⟩ [] ∧
    do_POST SerialConn.uninit
        ⟨"/wind-speed", some s,
          Except.ok (JsonVal.obj [("windSpeedKmh", JsonVal.num (PyFloat.finite q))])⟩ =
      Outcome.resp ⟨500, jsonHeaders, some (RespBody.serialError "")⟩ [] := by
  unfold do_POST
  constructor <;> simp [hs, hn, extractWindSpeed, getField, pyFloatOfJson]

theorem serial_error_500_witness :
    pyIntOfString "22" = some 22 ∧ (22 : ℤ) ≠ 0 ∧ ("device reports readiness error" ≠ "") ∧
    do_POST (SerialConn.failing "device reports readiness error")
        ⟨"/wind-speed", some "22",
          Except.ok (JsonVal.obj [("windSpeedKmh", JsonVal.num (PyFloat.finite 7))])⟩ =
      Outcome.resp ⟨500, jsonHeaders,
        some (RespBody.serialError "device reports readiness error")⟩ [] :=
  ⟨by decide, by decide, by decide,
    (serial_error_500 "22" 22 7 "device reports readiness error" (by decide) (by decide)).1⟩

/-- C5 (counterexample): a GET is not answered 404 with
`\x7b"error":"not_found"\x7d`: the handler class defines no `do_GET`, so the
HTTP library answers `501 Unsupported method` instead. -/
theorem get_request_501_counterexample :
    handleRequest SerialConn.working "GET" ⟨"/", none, Except.ok (JsonVal.obj [])⟩ =
      Outcome.resp ⟨501, [("Content-Type", "text/html;charset=utf-8"), ("Connection", "close")],
        some (RespBody.libError 501 "Unsupported method GET")⟩ [] ∧
    ¬ ∃ (hs : List (String × String)) (w : List String),
      handleRequest SerialConn.working "GET" ⟨"/", none, Except.ok (JsonVal.obj [])⟩ =
        Outcome.resp ⟨404, hs, some RespBody.notFound⟩ w := by
  have h0 : handleRequest SerialConn.working "GET" ⟨"/", none, Except.ok (JsonVal.obj [])⟩ =
      Outcome.resp ⟨501, [("Content-Type", "text/html;charset=utf-8"), ("Connection", "close")],
        some (RespBody.libError 501 "Unsupported method GET")⟩ [] := by decide
  refine ⟨h0, ?_⟩
  rintro ⟨hs, w, h⟩
  rw [h0] at h
  simp at h

/-- C5 (amended): a POST to any path other than `/wind-speed` is answered
404 `\x7b"error":"not_found"\x7d`; an OPTIONS on any path gets the 204 pre-flight
response; any method other than POST and OPTIONS is answered by the HTTP
library's 501 "Unsupported method" error page, not 404. -/
theorem routing_404_only_for_post (conn : SerialConn) (p : String) (cl : Option String)
    (b : Except Unit JsonVal) (m : String)
    (hp : p ≠ "/wind-speed") (hm1 : m ≠ "POST") (hm2 : m ≠ "OPTIONS") :
    do_POST conn ⟨p, cl, b⟩ = Outcome.resp ⟨404, jsonHeaders, some RespBody.notFound⟩ [] ∧
    RespBody.notFound.render = "\x7b\"error\":\"not_found\"\x7d" ∧
    handleRequest conn m ⟨p, cl, b⟩ =
      Outcome.resp ⟨501, [("Content-Type", "text/html;charset=utf-8"), ("Connection", "close")],
        some (RespBody.libError 501 ("Unsupported method " ++ m))⟩ [] ∧
    handleRequest conn "OPTIONS" ⟨p, cl, b⟩ = Outcome.resp ⟨204, corsHeaders, none⟩ [] := by
  refine ⟨?_, rfl, ?_, ?_⟩
  · unfold do_POST
    simp [hp]
  · unfold handleRequest
    simp [hm1, hm2]
  · rfl

theorem routing_404_only_for_post_witness :
    ("/other" ≠ "/wind-speed") ∧ ("GET" ≠ "POST") ∧ ("GET" ≠ "OPTIONS") ∧
    do_POST SerialConn.working ⟨"/other", none, Except.ok (JsonVal.obj [])⟩ =
      Outcome.resp ⟨404, jsonHeaders, some RespBody.notFound⟩ [] :=
  ⟨by decide, by decide, by decide,
    (routing_404_only_for_post SerialConn.working "/other" none (Except.ok (JsonVal.obj []))
      "GET" (by decide) (by decide) (by decide)).1⟩

/-- C6: if opening the serial port raises at startup, `SystemExit(1)`
propagates (only `KeyboardInterrupt` is caught in `__main__`), so the
process exits 1 and the HTTP listener is never started; on a clean stop —
signal-triggered shutdown or keyboard interrupt — the process exits 0. -/
theorem startup_and_exit_codes (e : String) (mode : StopMode) :
    processMain (Except.error e) mode = ⟨1, false, false⟩ ∧
    processMain (Except.ok ()) mode = ⟨0, true, true⟩ := by
  cases mode <;> exact ⟨rfl, rfl⟩

/-- C7 (evaluation at the failing input): a POST to `/wind-speed` whose
`Content-Length` header is the non-numeric string `"abc"` makes
`int(self.headers.get("Content-Length", "0"))` — which sits outside the
`try` block — raise an uncaught `ValueError`; the outcome is an escaped
exception, not a JSON error response. -/
theorem content_length_valueerror_escapes :
    do_POST SerialConn.working
        ⟨"/wind-speed", some "abc",
          Except.ok (JsonVal.obj [("windSpeedKmh", JsonVal.num (PyFloat.finite 7))])⟩ =
      Outcome.exn "ValueError" := by decide

/-- C8 (counterexample): the string `"inf"` coerces via `float()` to a
non-finite value, yet the request is accepted and `"inf\n"` is written to
the serial port — a non-finite reading does reach the Forward step. -/
theorem nonfinite_write_counterexample :
    pyFloatOfJson (JsonVal.str "inf") = some PyFloat.inf ∧
    do_POST SerialConn.working
        ⟨"/wind-speed", some "22",
          Except.ok (JsonVal.obj [("windSpeedKmh", JsonVal.str "inf")])⟩ =
      Outcome.resp ⟨200, jsonHeaders, some RespBody.ok⟩ ["inf\n"] := by
  constructor <;> decide

/-- C8 (amended): every value reaching the Forward step is whatever
`float()` produced, with no finiteness check: the serial write is always
`renderFloat f ++ "\n"` for the coerced value `f`, which for non-finite
values is `"nan\n"`, `"inf\n"` or `"-inf\n"` rather than a fixed-point
decimal. -/
theorem forward_writes_coerced_value (s : String) (n : ℤ) (b : Except Unit JsonVal)
    (f : PyFloat) (hs : pyIntOfString s = some n) (hn : n ≠ 0)
    (hf : extractWindSpeed b = some f) :
    do_POST SerialConn.working ⟨"/wind-speed", some s, b⟩ =
      Outcome.resp ⟨200, jsonHeaders, some RespBody.ok⟩ [renderFloat f ++ "\n"] := by
  unfold do_POST
  simp [hs, hn, hf]

theorem forward_writes_coerced_value_witness :
    pyIntOfString "22" = some 22 ∧ (22 : ℤ) ≠ 0 ∧
    extractWindSpeed (Except.ok (JsonVal.obj [("windSpeedKmh", JsonVal.str "nan")])) =
      some PyFloat.nan ∧
    do_POST SerialConn.working
        ⟨"/wind-speed", some "22",
          Except.ok (JsonVal.obj [("windSpeedKmh", JsonVal.str "nan")])⟩ =
      Outcome.resp ⟨200, jsonHeaders, some RespBody.ok⟩ [renderFloat PyFloat.nan ++ "\n"] ∧
    renderFloat PyFloat.nan ++ "\n" = "nan\n" :=
  ⟨by decide, by decide, by decide,
    forward_writes_coerced_value "22" 22
      (Except.ok (JsonVal.obj [("windSpeedKmh", JsonVal.str "nan")]))
      PyFloat.nan (by decide) (by decide) (by decide),
    by decide⟩

/-- C9: every response `do_POST` produces (200, 400, 404 and 500 alike)
carries the three CORS headers and `Content-Type: application/json` and has
a body, while the 204 OPTIONS pre-flight response carries exactly the CORS
headers and has no body. -/
theorem all_responses_cors_json (conn : SerialConn) (req : Request) (r : Response)
    (w : List String) (h : do_POST conn req = Outcome.resp r w) :
    (∀ hd ∈ corsHeaders, hd ∈ r.headers) ∧
    ("Content-Type", "application/json") ∈ r.headers ∧
    r.body.isSome = true ∧
    do_OPTIONS = Outcome.resp ⟨204, corsHeaders, none⟩ [] := by
  have key : r.headers = jsonHeaders ∧ r.body.isSome = true := by
    unfold do_POST at h
    split at h
    · cases h
      exact ⟨rfl, rfl⟩
    · split at h
      · simp at h
      · split at h
        · cases h
          exact ⟨rfl, rfl⟩
        · split at h <;>
            (cases h; exact ⟨rfl, rfl⟩)
  refine ⟨?_, ?_, key.2, rfl⟩
  · intro hd hm
    rw [key.1]
    exact List.mem_append_left _ hm
  · rw [key.1]
    simp [jsonHeaders]

theorem all_responses_cors_json_witness :
    do_POST SerialConn.working ⟨"/other", none, Except.ok (JsonVal.obj [])⟩ =
      Outcome.resp ⟨404, jsonHeaders, some RespBody.notFound⟩ [] ∧
    (∀ hd ∈ corsHeaders,
      hd ∈ (Response.mk 404 jsonHeaders (some RespBody.notFound)).headers) ∧
    ("Content-Type", "application/json") ∈
      (Response.mk 404 jsonHeaders (some RespBody.notFound)).headers :=
  ⟨by decide,
    (all_responses_cors_json SerialConn.working ⟨"/other", none, Except.ok (JsonVal.obj [])⟩
      ⟨404, jsonHeaders, some RespBody.notFound⟩ [] (by decide)).1,
    (all_responses_cors_json SerialConn.working ⟨"/other", none, Except.ok (JsonVal.obj [])⟩
      ⟨404, jsonHeaders, some RespBody.notFound⟩ [] (by decide)).2.1⟩

/-- C10: a `windSpeedKmh` that is a JSON string parsing as a number, or a
JSON boolean, passes the `float()` coercion, so the handler answers 200 and
writes the coerced value to one decimal place (`True` → `1.0`, `False` →
`0.0`) instead of rejecting with 400. -/
theorem string_bool_coercion_ok (s : String) (f : PyFloat) (cl : String) (n : ℤ)
    (hcl : pyIntOfString cl = some n) (hn : n ≠ 0) (hs : pyFloatOfString s = some f) :
    do_POST SerialConn.working
        ⟨"/wind-speed", some cl, Except.ok (JsonVal.obj [("windSpeedKmh", JsonVal.str s)])⟩ =
      Outcome.resp ⟨200, jsonHeaders, some RespBody.ok⟩ [renderFloat f ++ "\n"] ∧
    do_POST SerialConn.working
        ⟨"/wind-speed", some cl, Except.ok (JsonVal.obj [("windSpeedKmh", JsonVal.bool true)])⟩ =
      Outcome.resp ⟨200, jsonHeaders, some RespBody.ok⟩ [pyFormatFixed1 1 ++ "\n"] ∧
    do_POST SerialConn.working
        ⟨"/wind-speed", some cl, Except.ok (JsonVal.obj [("windSpeedKmh", JsonVal.bool false)])⟩ =
      Outcome.resp ⟨200, jsonHeaders, some RespBody.ok⟩ [pyFormatFixed1 0 ++ "\n"] := by
  unfold do_POST
  refine ⟨?_, ?_, ?_⟩ <;>
    simp [hcl, hn, extractWindSpeed, getField, pyFloatOfJson, hs, renderFloat]

theorem string_bool_coercion_ok_witness :
    pyIntOfString "18" = some 18 ∧ (18 : ℤ) ≠ 0 ∧
    pyFloatOfString "7" = some (PyFloat.finite 7) ∧
    do_POST SerialConn.working
        ⟨"/wind-speed", some "18",
          Except.ok (JsonVal.obj [("windSpeedKmh", JsonVal.str "7")])⟩ =
      Outcome.resp ⟨200, jsonHeaders, some RespBody.ok⟩
        [renderFloat (PyFloat.finite 7) ++ "\n"] ∧
    renderFloat (PyFloat.finite 7) ++ "\n" = "7.0\n" ∧
    pyFormatFixed1 1 ++ "\n" = "1.0\n" ∧ pyFormatFixed1 0 ++ "\n" = "0.0\n" :=
  ⟨by decide, by decide, by decide,
    (string_bool_coercion_ok "7" (PyFloat.finite 7) "18" 18
      (by decide) (by decide) (by decide)).1,
    by decide, by decide, by decide⟩

end SerialBridge
